import Mathlib

/-!
# Verification of `als-microct-toolbox/data_management.py`

A shallow embedding of the SPOT data-management client
(`SpotSession` and the NERSC helper functions) together with proofs
about its path resolution, session lifecycle, derived-dataset
selection, download operations and the text-list parser.

Python strings are modelled as Lean `String` (a structure over
`List Char`); Python's character-set `str.strip` is modelled by
`pyStripStr`; Python list indexing (with negative indices and
`IndexError`) by `pyIndex`; runtime exceptions (`IndexError`,
`UnboundLocalError`, `NameError`) by an explicit error type `PyErr`
and `Except` results.  Network traffic is modelled by an explicit
trace of issued `Request`s against an abstract `Service` supplying
the decoded responses (a typed mock of the remote portal).
-/

/-- Python runtime exceptions raised by this module's code. -/
inductive PyErr where
  | indexError
  | unboundLocalError
  | nameError
deriving DecidableEq, Repr

/-! ## Python string primitives -/

/-- Holds when, in `startsWithList pat l`, `pat` is an initial segment of `l`. -/
def startsWithList [DecidableEq α] : List α → List α → Bool
  | [], _ => true
  | _ :: _, [] => false
  | p :: ps, c :: cs => p = c && startsWithList ps cs

/-- Holds when, in `hasSubList pat l`, `pat` occurs contiguously inside `l`;
this is Python's `pat in s` / `s.find(pat) != -1` on the character lists. -/
def hasSubList [DecidableEq α] (pat : List α) : List α → Bool
  | [] => startsWithList pat ([] : List α)
  | c :: cs => startsWithList pat (c :: cs) || hasSubList pat cs

/-- Python substring test `pat in s` (also `s.find(pat) != -1`). -/
def strContains (s pat : String) : Bool :=
  hasSubList pat.data s.data

/-- Drop from the left every leading character that belongs to `cs`. -/
def lstripList (cs : List Char) (l : List Char) : List Char :=
  l.dropWhile (fun c => cs.contains c)

/-- Drop from the right every trailing character that belongs to `cs`. -/
def rstripList (cs : List Char) (l : List Char) : List Char :=
  (l.reverse.dropWhile (fun c => cs.contains c)).reverse

/-- Python `str.strip(chars)`: remove every leading and trailing character
that belongs to the set `cs`.  The two ends are independent, so stripping
the right end first is the same operation Python performs. -/
def stripList (cs : List Char) (l : List Char) : List Char :=
  lstripList cs (rstripList cs l)

/-- Python `s.strip(chars)` on `String`. -/
def pyStripStr (cs : List Char) (s : String) : String :=
  String.mk (stripList cs s.data)

/-- The character set of Python's `.strip(".h5")`: it strips the
characters `.`, `h`, `5` from both ends, not the suffix `".h5"`. -/
def stripH5 : List Char := ['.', 'h', '5']

/-- Python `str.split(sep)` for a one-character separator: splits at every
occurrence, keeping empty fields (`"".split("/") == [""]`). -/
def splitOnChar (sep : Char) : List Char → List (List Char)
  | [] => [[]]
  | c :: rest =>
    match splitOnChar sep rest with
    | [] => [[]]
    | h :: t => if c = sep then [] :: h :: t else (c :: h) :: t

/-- Python list indexing `l[i]`: negative indices count from the end;
out-of-range yields `none` (an `IndexError` at the call site). -/
def pyIndex (l : List α) (i : Int) : Option α :=
  let j : Int := if i < 0 then i + l.length else i
  if j < 0 then none else l.get? j.toNat

/-! ## Requests and the remote service -/

/-- One HTTP GET issued through the session: the URL string and the
query parameters, in the order the code supplies them. -/
structure Request where
  url : String
  params : List (String × String)
deriving DecidableEq, Repr

/-- A derived-dataset record as returned by the `dataset` endpoint:
the code reads only its `path` field; the `kind` field is carried
along as described by the API. -/
structure DerivedRecord where
  kind : String
  path : String
deriving DecidableEq, Repr

/-- Typed mock of the remote portal: for each request, the decoded
response body in the shape the calling code consumes. -/
structure Service where
  /-- generic JSON text body (auth, search, attributes, image-URL list) -/
  jsonText : Request → String
  /-- response of the derived-dataset endpoint -/
  jsonDerived : Request → List DerivedRecord
  /-- response of the list-images endpoint -/
  jsonList : Request → List String
  /-- binary payload of a download endpoint, as bytes -/
  content : Request → List Nat

/-! ## SpotSession -/

def URL_authentication : String := "https://portal-auth.nersc.gov/als/auth"
def URL_search : String := "https://portal-auth.nersc.gov/als/hdf/search"
def URL_DerivedDatasets : String := "https://portal-auth.nersc.gov/als/hdf/dataset"
def URL_attributes : String := "https://portal-auth.nersc.gov/als/hdf/attributes/als/bl832/"
def URL_listImages : String := "https://portal-auth.nersc.gov/als/hdf/listimages/als/bl832/"
def URL_rawdata : String := "https://portal-auth.nersc.gov/als/hdf/rawdata"
def URL_image : String := "https://portal-auth.nersc.gov/als/hdf/image"

/-- The session state: the hard-coded `username` attribute, the
`spot_username` used in file paths, and whether the underlying
`requests.Session` has been closed. -/
structure SpotSession where
  username : String
  spot_username : String
  closed : Bool
deriving DecidableEq, Repr

/-- Model of `SpotSession.__init__`: `self.username` is hard-coded to
`"alvarorh"`; `spot_username` is the argument, replaced by
`self.username` when the argument is the sentinel `'default'`.
(The authentication handshake GET/POST against `URL_authentication`
establishes the session and is not needed by any claim below.) -/
def SpotSession.init (username : String) : SpotSession :=
  { username := "alvarorh"
    spot_username := if username = "default" then "alvarorh" else username
    closed := false }

/-- Model of `SpotSession.formatPath(dataset, username='default')`.
`username = none` models Python `None`; `some "default"` the default
sentinel.  The dataset is first `strip(".h5")`-ped; when the username
is the sentinel or `None` the (stripped) dataset is returned whole
with the session's own username; otherwise, when the dataset contains
`"/"`, `datasplit[-1]` is the filename and `datasplit[-2]` the
username. -/
def SpotSession.formatPath (s : SpotSession) (dataset : String)
    (username : Option String := some "default") : String × String :=
  let dataset := pyStripStr stripH5 dataset
  match username with
  | none => (dataset, s.spot_username)
  | some u =>
    if u = "default" then (dataset, s.spot_username)
    else if strContains dataset "/" then
      let datasplit := splitOnChar '/' dataset.data
      (String.mk (datasplit.getLastD []), String.mk (datasplit.dropLast.getLastD []))
    else (dataset, u)

/-- Model of `SpotSession.close`: closes the underlying `requests.Session` and
then issues one more GET against the authentication endpoint, returning
its JSON body.  Result: (decoded body, new session state, requests issued). -/
def SpotSession.close (svc : Service) (s : SpotSession) :
    String × SpotSession × List Request :=
  let s' : SpotSession := { s with closed := true }
  let req : Request := ⟨URL_authentication, []⟩
  (svc.jsonText req, s', [req])

/-- Model of `SpotSession.search`: one GET against the search endpoint with the
five query parameters; returns the JSON body and the request trace.
No state is consulted or changed (in particular `closed` is not read). -/
def SpotSession.search (svc : Service) (_s : SpotSession) (search : String)
    (limitnum : Int := 10) (skipnum : Int := 0)
    (sortterm : String := "fs.stage_date") (sorttype : String := "desc") :
    String × List Request :=
  let req : Request := ⟨URL_search,
    [("limitnum", toString limitnum), ("skipnum", toString skipnum),
     ("sortterm", sortterm), ("sorttype", sorttype), ("search", search)]⟩
  (svc.jsonText req, [req])

/-- Model of `SpotSession.derived_datasets`: strips `".h5"` from the dataset and
issues one GET with the dataset as parameter; returns the decoded list
of derived-dataset records and the request trace. -/
def SpotSession.derived_datasets (svc : Service) (_s : SpotSession)
    (dataset : String) : List DerivedRecord × List Request :=
  let dataset := pyStripStr stripH5 dataset
  let req : Request := ⟨URL_DerivedDatasets, [("dataset", dataset)]⟩
  (svc.jsonDerived req, [req])

/-- Model of `SpotSession.list_images`: strips `".h5"` from the dataset, builds
the list-images URL from username and dataset, and issues one GET with
no parameters. -/
def SpotSession.list_images (svc : Service) (_s : SpotSession)
    (dataset username : String) : List String × List Request :=
  let dataset := pyStripStr stripH5 dataset
  let URLstring := URL_listImages ++ username ++ "/" ++ dataset ++ "/raw/" ++ dataset ++ ".h5"
  let req : Request := ⟨URLstring, []⟩
  (svc.jsonList req, [req])

/-- Model of `SpotSession.attributes(dataset, username=None)`: resolves the path
with `formatPath` and issues one GET with `group = "/"`. -/
def SpotSession.attributes (svc : Service) (s : SpotSession)
    (dataset : String) (username : Option String := none) :
    String × List Request :=
  let fu := s.formatPath dataset username
  let URLstring := URL_attributes ++ fu.2 ++ "/" ++ fu.1 ++ "/raw/" ++ fu.1 ++ ".h5"
  let req : Request := ⟨URLstring, [("group", "/")]⟩
  (svc.jsonText req, [req])

/-! ## Derived-path selection and the download operations -/

/-- The path-selection loop of `download_image` / `download_URLS`:

    for i in range(len(data_paths)):
        path = data_paths[i]['path']
        if path.find(kind) != -1:
            break

`acc` is the current value of the local variable `path` (`none` while it
is still unbound).  Each iteration assigns `path` before testing, so an
empty list leaves `path` unbound, and a nonempty list without a match
leaves `path` equal to the last record's path. -/
def scanPath (kind : String) : List DerivedRecord → Option String → Option String
  | [], acc => acc
  | r :: rs, _ =>
    if strContains r.path kind then some r.path else scanPath kind rs (some r.path)

/-- Model of `SpotSession.download_image(dataset, username='default', kind='raw',
number=0, downloadPath='default', downloadName='default')`.

Returns `(result, trace)`: on success the result is the written file's
location and the bytes written to it; exceptions are the `IndexError`
of `image_list[number]` or of `downloadPath[-1]` on an empty path, and
the `UnboundLocalError` raised at `URLstring = URL_download + path`
when the derived-dataset list was empty.  The trace lists every GET
issued, in order.  (The chunked write `iter_content(chunk_size=512)`
writes exactly the response body, since empty chunks are skipped and
the remaining chunks concatenate to the body.) -/
def SpotSession.download_image (svc : Service) (s : SpotSession)
    (dataset : String) (username : Option String := some "default")
    (kind : String := "raw") (number : Int := 0)
    (downloadPath : String := "default") (downloadName : String := "default") :
    Except PyErr (String × List Nat) × List Request :=
  let fu := s.formatPath dataset username
  let filename := fu.1
  let username := fu.2
  let dd := SpotSession.derived_datasets svc s filename
  let data_paths := dd.1
  let pathOpt := scanPath kind data_paths none
  let li := SpotSession.list_images svc s filename username
  let image_list := li.1
  let reqs := dd.2 ++ li.2
  match pyIndex image_list number with
  | none => (.error .indexError, reqs)
  | some image =>
    let downloadPath := if downloadPath = "default" then "./" else downloadPath
    let downloadName := if downloadName = "default" then filename else downloadName
    match downloadPath.data.getLast? with
    | none => (.error .indexError, reqs)
    | some c =>
      let downloadPath := if c ≠ '/' then downloadPath ++ "/" else downloadPath
      match pathOpt with
      | none => (.error .unboundLocalError, reqs)
      | some path =>
        let req : Request := ⟨URL_rawdata ++ path, [("group", "/" ++ image)]⟩
        let fileLocation := downloadPath ++ downloadName ++ ".tif"
        (.ok (fileLocation, svc.content req), reqs ++ [req])

/-- Model of `SpotSession.download_URLS(dataset, username='default', kind='raw',
number=0)`: same resolution as `download_image`, but the final GET goes
to the image endpoint and its JSON body is returned instead of writing
a file. -/
def SpotSession.download_URLS (svc : Service) (s : SpotSession)
    (dataset : String) (username : Option String := some "default")
    (kind : String := "raw") (number : Int := 0) :
    Except PyErr String × List Request :=
  let fu := s.formatPath dataset username
  let filename := fu.1
  let username := fu.2
  let dd := SpotSession.derived_datasets svc s filename
  let data_paths := dd.1
  let pathOpt := scanPath kind data_paths none
  let li := SpotSession.list_images svc s filename username
  let image_list := li.1
  let reqs := dd.2 ++ li.2
  match pyIndex image_list number with
  | none => (.error .indexError, reqs)
  | some image =>
    match pathOpt with
    | none => (.error .unboundLocalError, reqs)
    | some path =>
      let req : Request := ⟨URL_image ++ path, [("group", "/" ++ image)]⟩
      (.ok (svc.jsonText req), reqs ++ [req])

/-! ## NERSC helper functions -/

def NERSC_DefaultPath : String := "/global/project/projectdirs/als/spade/warehouse/als/bl832/"
def userDefault : String := "hsbarnard"

/-- The module's global namespace, as visible inside `NERSC_RetreiveData`:
`NERSC_DefaultPath` and `userDefault` are defined at module level;
`useraccount` is bound nowhere (it is only a parameter name of
`NERSC_ArchivePath`), so looking it up raises `NameError`. -/
def lookupGlobal (name : String) : Option String :=
  if name = "NERSC_DefaultPath" then some NERSC_DefaultPath
  else if name = "userDefault" then some userDefault
  else none

/-- Model of `NERSC_RetreiveData(filename, username, destinationpath, archivepath)`.
The body reads the global name `useraccount` (not the `username`
parameter) inside both loops; since that global does not exist, the
first iteration raises `NameError`.  With an empty filename list both
loops run zero times and no copy is performed.  On success (which
cannot occur in this module as written) the result would be the list
of `(source, destination)` copies performed. -/
def NERSC_RetreiveData (filename : List String) (_username : String)
    (destinationpath : String) (archivepath : String := NERSC_DefaultPath) :
    Except PyErr (List (String × String)) :=
  match lookupGlobal "useraccount" with
  | none =>
    match filename with
    | [] => .ok []
    | _ :: _ => .error .nameError
  | some useraccount =>
    let filePathIn := filename.map
      (fun f => archivepath ++ useraccount ++ "/" ++ f ++ "/raw/" ++ f ++ ".h5")
    let filePathOut := filename.map (fun f => destinationpath ++ f ++ ".h5")
    .ok (filePathIn.zip filePathOut)

/-! ## list_from_txt -/

/-- Python `file.readlines()`: split the content after every newline,
each line keeping its trailing `'\n'`; a final segment without a
newline is kept as-is; an empty final segment produces no line. -/
def readlinesAux (acc : List Char) : List Char → List String
  | [] => if acc.isEmpty then [] else [String.mk acc.reverse]
  | c :: rest =>
    if c = '\n' then String.mk (acc.reverse ++ ['\n']) :: readlinesAux [] rest
    else readlinesAux (c :: acc) rest

def readlines (content : String) : List String :=
  readlinesAux [] content.data

/-- The per-line loop of `list_from_txt`:

    data[i] = data[i].strip(" ")
    data[i] = data[i].strip("\n")
    if data[i][0] != comment:
        fileList.append(data[i])

`data[i][0]` raises `IndexError` when the stripped line is empty, and
the exception aborts the whole call. -/
def processLines (comment : String) : List String → Except PyErr (List String)
  | [] => .ok []
  | line :: rest =>
    let line := pyStripStr [' '] line
    let line := pyStripStr ['\n'] line
    match line.data.head? with
    | none => .error .indexError
    | some c =>
      match processLines comment rest with
      | .error e => .error e
      | .ok tail =>
        .ok (if String.mk [c] ≠ comment then line :: tail else tail)

/-- Model of `list_from_txt(TextFilePath, comment='#')`, text branch: read the
lines of the file's content, strip spaces then newlines from each, and
keep uncommented lines.  (The `'.py' in TextFilePath` branch executes
an arbitrary script via `execfile` and is outside this model; the
claims concern text sources, so the model takes the content of the
text resource directly.) -/
def list_from_txt (content : String) (comment : String := "#") :
    Except PyErr (List String) :=
  processLines comment (readlines content)

/-! ## Lemmas about the string primitives -/

theorem dropWhile_append_all {α : Type} {p : α → Bool} :
    ∀ (xs ys : List α), (∀ a ∈ xs, p a = true) →
      (xs ++ ys).dropWhile p = ys.dropWhile p
  | [], _, _ => rfl
  | x :: xs, ys, h => by
    have hx : p x = true := h x (by simp)
    simp only [List.cons_append, List.dropWhile_cons_of_pos hx]
    exact dropWhile_append_all xs ys (fun a ha => h a (by simp [ha]))

/-- Appending characters that all belong to the strip set does not change
the result of a `strip`. -/
theorem stripList_append_all (cs : List Char) (l suf : List Char)
    (h : ∀ c ∈ suf, cs.contains c = true) :
    stripList cs (l ++ suf) = stripList cs l := by
  unfold stripList rstripList
  rw [List.reverse_append,
      dropWhile_append_all suf.reverse l.reverse (fun c hc => h c (by simpa using hc))]

theorem pyStripStr_append_h5 (d : String) :
    pyStripStr stripH5 (d ++ ".h5") = pyStripStr stripH5 d := by
  unfold pyStripStr
  rw [show (d ++ ".h5").data = d.data ++ ['.', 'h', '5'] from rfl,
      stripList_append_all stripH5 d.data ['.', 'h', '5'] (by decide)]

/-- A list whose head is not stripped (or which is empty) is unchanged by
`dropWhile`. -/
theorem dropWhile_id_of_head {α : Type} (p : α → Bool) (l : List α)
    (h : l.head?.all (fun c => !p c) = true) : l.dropWhile p = l := by
  cases l with
  | nil => rfl
  | cons c cs =>
    simp only [List.head?, Option.all_some, Bool.not_eq_true'] at h
    exact List.dropWhile_cons_of_neg (by simp [h])

/-- A membership at any position makes `hasSubList` of the singleton true. -/
theorem hasSubList_singleton_of_mem {α : Type} [DecidableEq α] {a : α} :
    ∀ {l : List α}, a ∈ l → hasSubList [a] l = true := by
  intro l hl
  induction l with
  | nil => cases hl
  | cons c cs ih =>
    cases hl with
    | head => simp [hasSubList, startsWithList]
    | tail _ h => simp [hasSubList, ih h]

/-- Python `split` on a separator-free list returns the singleton. -/
theorem splitOnChar_of_not_mem {sep : Char} :
    ∀ {l : List Char}, sep ∉ l → splitOnChar sep l = [l] := by
  intro l hl
  induction l with
  | nil => rfl
  | cons c cs ih =>
    have hc : c ≠ sep := fun h => hl (h ▸ List.mem_cons_self c cs)
    have hcs : sep ∉ cs := fun h => hl (List.mem_cons_of_mem c h)
    simp [splitOnChar, ih hcs, hc]

/-- Python `split` on `u ++ sep :: f` with separator-free `u` and `f`
returns exactly the two fields. -/
theorem splitOnChar_two_fields {sep : Char} :
    ∀ {u f : List Char}, sep ∉ u → sep ∉ f →
      splitOnChar sep (u ++ sep :: f) = [u, f] := by
  intro u f hu hf
  induction u with
  | nil => simp [splitOnChar, splitOnChar_of_not_mem hf]
  | cons c cs ih =>
    have hc : c ≠ sep := fun h => hu (h ▸ List.mem_cons_self c cs)
    have hcs : sep ∉ cs := fun h => hu (List.mem_cons_of_mem c h)
    simp only [List.cons_append, splitOnChar]
    rw [show cs.append (sep :: f) = cs ++ sep :: f from rfl, ih hcs]
    simp [hc]

/-! ## C6: trailing ".h5" removal does not affect formatPath -/

/-- C6: for every dataset identifier ending in ".h5", `formatPath`
returns exactly the same (filename, username) pair as `formatPath`
applied to the identifier with the trailing ".h5" removed, for every
username argument and every session.  (Stated over `d ++ ".h5"`, which
ranges over exactly the identifiers ending in ".h5".) -/
theorem formatPath_drop_h5_ext (s : SpotSession) (d : String) (un : Option String) :
    s.formatPath (d ++ ".h5") un = s.formatPath d un := by
  simp only [SpotSession.formatPath, pyStripStr_append_h5]

/-! ## C1: splitting an identifier that embeds a username -/

/-- A shared trivial mock of the remote service. -/
def svcTrivial : Service :=
  { jsonText := fun _ => "{}"
    jsonDerived := fun _ => []
    jsonList := fun _ => []
    content := fun _ => [] }

/-- C1 fails as stated: with the username omitted (the `'default'`
sentinel), `formatPath` does not split `"u/f"` — it returns the whole
identifier as the filename together with the session's own username,
here `("u/f", "alice")`, not `("f", "u")`. -/
theorem formatPath_default_username_no_split :
    (SpotSession.init "alice").formatPath "u/f" (some "default") ≠ ("f", "u") := by
  decide

/-- C1 (amended): when an explicit username (neither `None` nor
`'default'`) is supplied and the identifier `u ++ "/" ++ f` is
unchanged by the initial `strip(".h5")`, `formatPath` yields
`(filename = f, username = u)` for separator-free `u` and `f`.  When
the username argument is `None` or `'default'`, `formatPath` instead
returns the whole stripped identifier as filename, paired with the
session's own username. -/
theorem formatPath_split_on_explicit_username (s : SpotSession) (u f u₀ d : String)
    (hu0 : u₀ ≠ "default")
    (hu : '/' ∉ u.data) (hf : '/' ∉ f.data)
    (hstrip : pyStripStr stripH5 (u ++ "/" ++ f) = u ++ "/" ++ f) :
    s.formatPath (u ++ "/" ++ f) (some u₀) = (f, u) ∧
    s.formatPath d none = (pyStripStr stripH5 d, s.spot_username) ∧
    s.formatPath d (some "default") = (pyStripStr stripH5 d, s.spot_username) := by
  refine ⟨?_, rfl, by simp [SpotSession.formatPath]⟩
  have hmem : '/' ∈ (u ++ "/" ++ f).data := by
    rw [show (u ++ "/" ++ f).data = (u.data ++ ['/']) ++ f.data from rfl]
    simp
  have hcont : strContains (u ++ "/" ++ f) "/" = true := by
    unfold strContains
    exact hasSubList_singleton_of_mem hmem
  have hsplit : splitOnChar '/' (u ++ "/" ++ f).data = [u.data, f.data] := by
    rw [show (u ++ "/" ++ f).data = u.data ++ '/' :: f.data by
          rw [show (u ++ "/" ++ f).data = (u.data ++ ['/']) ++ f.data from rfl]; simp]
    exact splitOnChar_two_fields hu hf
  simp only [SpotSession.formatPath, hstrip, if_neg hu0, hcont, if_pos, hsplit]
  simp

/-- Witness for the amended C1 at concrete inputs. -/
theorem formatPath_split_on_explicit_username_witness :
    ("bob" ≠ "default" ∧ '/' ∉ ("uu" : String).data ∧ '/' ∉ ("ff" : String).data ∧
      pyStripStr stripH5 ("uu" ++ "/" ++ "ff") = "uu" ++ "/" ++ "ff") ∧
    (SpotSession.init "x").formatPath ("uu" ++ "/" ++ "ff") (some "bob") = ("ff", "uu") :=
  ⟨⟨by decide, by decide, by decide, by decide⟩,
    (formatPath_split_on_explicit_username (SpotSession.init "x") "uu" "ff" "bob" "d"
      (by decide) (by decide) (by decide) (by decide)).1⟩

/-! ## C8: what dataset-identifier normalization strips -/

/-- C8 fails as stated: `"hello"` contains no path separator and does
not end in `".h5"`, yet `formatPath` with an explicit username returns
filename `"ello"`, not `"hello"`: Python's `strip(".h5")` removes the
characters `.`, `h`, `5` from both ends, here the leading `h`. -/
theorem formatPath_strips_more_than_h5_ext :
    (SpotSession.init "x").formatPath "hello" (some "bob") ≠ ("hello", "bob") := by
  decide

/-- C8 (amended): normalization strips every leading and trailing
character drawn from the set {'.', 'h', '5'}; consequently, for a
dataset with no path separator whose first and last characters lie
outside that set, `formatPath` with an explicit username returns the
dataset unchanged as the filename, with the given username. -/
theorem formatPath_id_of_boundary_clear (s : SpotSession) (d u₀ : String)
    (hu0 : u₀ ≠ "default")
    (hsep : strContains d "/" = false)
    (hhead : d.data.head?.all (fun c => !stripH5.contains c) = true)
    (hlast : d.data.getLast?.all (fun c => !stripH5.contains c) = true) :
    s.formatPath d (some u₀) = (d, u₀) := by
  have hr : rstripList stripH5 d.data = d.data := by
    unfold rstripList
    rw [dropWhile_id_of_head _ d.data.reverse (by rwa [List.head?_reverse]),
        List.reverse_reverse]
  have hstrip : pyStripStr stripH5 d = d := by
    unfold pyStripStr stripList lstripList
    rw [hr, dropWhile_id_of_head _ d.data hhead]
  simp [SpotSession.formatPath, hstrip, hu0, hsep]

/-- Witness for the amended C8 at concrete inputs. -/
theorem formatPath_id_of_boundary_clear_witness :
    (("bob" : String) ≠ "default" ∧ strContains "abc" "/" = false ∧
      ("abc" : String).data.head?.all (fun c => !stripH5.contains c) = true ∧
      ("abc" : String).data.getLast?.all (fun c => !stripH5.contains c) = true) ∧
    (SpotSession.init "x").formatPath "abc" (some "bob") = ("abc", "bob") :=
  ⟨⟨by decide, by decide, by decide, by decide⟩,
    formatPath_id_of_boundary_clear (SpotSession.init "x") "abc" "bob"
      (by decide) (by decide) (by decide) (by decide)⟩

/-! ## C2: behaviour after close() -/

/-- C2 fails as stated: on a concrete closed session, `close` itself
has issued a GET after closing, and a subsequent `search`,
`derived_datasets`, `list_images` and `attributes` each still issue
their network request and return normally — no `SessionClosedError`
is ever raised (no such error exists in the module). -/
theorem closed_session_still_issues_requests :
    ((SpotSession.close svcTrivial (SpotSession.init "alice")).2.2 ≠ []) ∧
    ((SpotSession.close svcTrivial (SpotSession.init "alice")).2.1.closed = true) ∧
    ((SpotSession.search svcTrivial
        (SpotSession.close svcTrivial (SpotSession.init "alice")).2.1
        "bl832" 10 0 "fs.stage_date" "desc").2 ≠ []) ∧
    ((SpotSession.derived_datasets svcTrivial
        (SpotSession.close svcTrivial (SpotSession.init "alice")).2.1 "ds").2 ≠ []) ∧
    ((SpotSession.list_images svcTrivial
        (SpotSession.close svcTrivial (SpotSession.init "alice")).2.1 "ds" "u").2 ≠ []) ∧
    ((SpotSession.attributes svcTrivial
        (SpotSession.close svcTrivial (SpotSession.init "alice")).2.1 "ds" none).2 ≠ []) := by
  refine ⟨by simp [SpotSession.close], by rfl, ?_, ?_, ?_, ?_⟩ <;>
    simp [SpotSession.search, SpotSession.derived_datasets,
      SpotSession.list_images, SpotSession.attributes]

/-- C2 (amended): `close` marks the underlying session closed but then
itself issues one further GET against the authentication endpoint and
returns its JSON body; no operation checks for a closed state, so every
subsequent query operation behaves exactly as on an open session and
issues its network request — a `SessionClosedError` is never raised. -/
theorem close_then_query_ops_unchanged (svc : Service) (s : SpotSession)
    (q : String) (ln sn : Int) (st so : String) (d di iu : String)
    (un : Option String) :
    (SpotSession.close svc s).2.1 = { s with closed := true } ∧
    (SpotSession.close svc s).2.2 = [⟨URL_authentication, []⟩] ∧
    (SpotSession.close svc s).1 = svc.jsonText ⟨URL_authentication, []⟩ ∧
    SpotSession.search svc { s with closed := true } q ln sn st so
      = SpotSession.search svc s q ln sn st so ∧
    (SpotSession.search svc s q ln sn st so).2 ≠ [] ∧
    SpotSession.derived_datasets svc { s with closed := true } d
      = SpotSession.derived_datasets svc s d ∧
    (SpotSession.derived_datasets svc s d).2 ≠ [] ∧
    SpotSession.list_images svc { s with closed := true } di iu
      = SpotSession.list_images svc s di iu ∧
    (SpotSession.list_images svc s di iu).2 ≠ [] ∧
    SpotSession.attributes svc { s with closed := true } d un
      = SpotSession.attributes svc s d un ∧
    (SpotSession.attributes svc s d un).2 ≠ [] := by
  refine ⟨rfl, rfl, rfl, rfl, ?_, rfl, ?_, rfl, ?_, rfl, ?_⟩ <;>
    simp [SpotSession.search, SpotSession.derived_datasets,
      SpotSession.list_images, SpotSession.attributes]

/-! ## C3: empty derived-dataset sequence aborts the download operations -/

/-- No URL extending the rawdata endpoint can equal a string whose
character at position 38 (the first letter after ".../hdf/") is not
the `'r'` of "rawdata". -/
theorem ne_rawdata_ext_of_char38 {w : String} (h : w.data[38]? ≠ some 'r')
    (x : String) : w ≠ URL_rawdata ++ x := by
  intro he
  apply h
  rw [he, String.data_append, List.getElem?_append_left (by decide)]
  decide

/-- No URL extending the image endpoint can equal a string whose
character at position 38 is not the `'i'` of "image". -/
theorem ne_image_ext_of_char38 {w : String} (h : w.data[38]? ≠ some 'i')
    (x : String) : w ≠ URL_image ++ x := by
  intro he
  apply h
  rw [he, String.data_append, List.getElem?_append_left (by decide)]
  decide

/-- The character at position 38 of a list-images URL is the `'l'` of
"listimages", whatever follows the fixed stem. -/
theorem listImages_url_char38 (a : String) :
    (URL_listImages ++ a).data[38]? = some 'l' := by
  rw [String.data_append, List.getElem?_append_left (by decide)]
  decide

/-- A request issued during path resolution (the derived-dataset GET or
the list-images GET) never targets the rawdata or image download
endpoints. -/
theorem resolution_trace_ne_download {svc : Service} {s : SpotSession}
    {fn un : String} {r : Request}
    (hr : r ∈ (SpotSession.derived_datasets svc s fn).2
              ++ (SpotSession.list_images svc s fn un).2) :
    (∀ x, r.url ≠ URL_rawdata ++ x) ∧ (∀ x, r.url ≠ URL_image ++ x) := by
  simp only [SpotSession.derived_datasets, SpotSession.list_images,
    List.mem_append, List.mem_singleton] at hr
  rcases hr with hr | hr <;> subst hr
  · refine ⟨fun x => ne_rawdata_ext_of_char38 ?_ x, fun x => ne_image_ext_of_char38 ?_ x⟩
    · show URL_DerivedDatasets.data[38]? ≠ some 'r'
      decide
    · show URL_DerivedDatasets.data[38]? ≠ some 'i'
      decide
  · constructor <;> intro x
    · apply ne_rawdata_ext_of_char38 _ x
      show (URL_listImages ++ un ++ "/" ++ pyStripStr stripH5 fn ++ "/raw/"
              ++ pyStripStr stripH5 fn ++ ".h5").data[38]? ≠ some 'r'
      simp only [String.append_assoc]
      rw [listImages_url_char38]
      decide
    · apply ne_image_ext_of_char38 _ x
      show (URL_listImages ++ un ++ "/" ++ pyStripStr stripH5 fn ++ "/raw/"
              ++ pyStripStr stripH5 fn ++ ".h5").data[38]? ≠ some 'i'
      simp only [String.append_assoc]
      rw [listImages_url_char38]
      decide

/-- C3: whenever the derived-dataset lookup returns an empty sequence,
both `download_image` and `download_URLS` end in an explicit failure
(the `IndexError` of the image lookup or the `UnboundLocalError`
raised where the code would use the undefined `path`), and no request
is ever issued against the rawdata or image download endpoints — the
operations never silently build a download URL from an undefined
path. -/
theorem download_ops_fail_on_empty_derived (svc : Service) (s : SpotSession)
    (dataset : String) (username : Option String) (kind : String) (number : Int)
    (downloadPath downloadName : String)
    (h : (SpotSession.derived_datasets svc s (s.formatPath dataset username).1).1 = []) :
    (((SpotSession.download_image svc s dataset username kind number downloadPath downloadName).1
        = Except.error PyErr.indexError ∨
      (SpotSession.download_image svc s dataset username kind number downloadPath downloadName).1
        = Except.error PyErr.unboundLocalError) ∧
     (∀ r ∈ (SpotSession.download_image svc s dataset username kind number downloadPath downloadName).2,
        ∀ x, r.url ≠ URL_rawdata ++ x)) ∧
    (((SpotSession.download_URLS svc s dataset username kind number).1
        = Except.error PyErr.indexError ∨
      (SpotSession.download_URLS svc s dataset username kind number).1
        = Except.error PyErr.unboundLocalError) ∧
     (∀ r ∈ (SpotSession.download_URLS svc s dataset username kind number).2,
        ∀ x, r.url ≠ URL_image ++ x)) := by
  refine ⟨⟨?_, ?_⟩, ?_, ?_⟩
  · simp only [SpotSession.download_image, h, scanPath]
    rcases hpi : pyIndex (SpotSession.list_images svc s (s.formatPath dataset username).1
        (s.formatPath dataset username).2).1 number with _ | img
    · simp [hpi]
    · rcases hgl : (if downloadPath = "default" then "./" else downloadPath).data.getLast? with _ | c
      · simp [hpi, hgl]
      · simp [hpi, hgl]
  · simp only [SpotSession.download_image, h, scanPath]
    intro r hr x
    rcases hpi : pyIndex (SpotSession.list_images svc s (s.formatPath dataset username).1
        (s.formatPath dataset username).2).1 number with _ | img <;>
      simp only [hpi] at hr
    · exact (resolution_trace_ne_download hr).1 x
    · rcases hgl : (if downloadPath = "default" then "./" else downloadPath).data.getLast? with _ | c <;>
        simp only [hgl] at hr
      · exact (resolution_trace_ne_download hr).1 x
      · exact (resolution_trace_ne_download hr).1 x
  · simp only [SpotSession.download_URLS, h, scanPath]
    rcases hpi : pyIndex (SpotSession.list_images svc s (s.formatPath dataset username).1
        (s.formatPath dataset username).2).1 number with _ | img
    · simp [hpi]
    · simp [hpi]
  · simp only [SpotSession.download_URLS, h, scanPath]
    intro r hr x
    rcases hpi : pyIndex (SpotSession.list_images svc s (s.formatPath dataset username).1
        (s.formatPath dataset username).2).1 number with _ | img <;>
      simp only [hpi] at hr <;>
      exact (resolution_trace_ne_download hr).2 x

/-- Witness for C3 at concrete inputs: the trivial mock returns an
empty derived-dataset list, and both download operations fail without
touching a download endpoint. -/
theorem download_ops_fail_on_empty_derived_witness :
    ((SpotSession.derived_datasets svcTrivial (SpotSession.init "a")
        ((SpotSession.init "a").formatPath "ds" (some "u")).1).1 = []) ∧
    ((((SpotSession.download_image svcTrivial (SpotSession.init "a") "ds" (some "u") "norm" 0 "out" "nm").1
        = Except.error PyErr.indexError ∨
      (SpotSession.download_image svcTrivial (SpotSession.init "a") "ds" (some "u") "norm" 0 "out" "nm").1
        = Except.error PyErr.unboundLocalError) ∧
     (∀ r ∈ (SpotSession.download_image svcTrivial (SpotSession.init "a") "ds" (some "u") "norm" 0 "out" "nm").2,
        ∀ x, r.url ≠ URL_rawdata ++ x)) ∧
    (((SpotSession.download_URLS svcTrivial (SpotSession.init "a") "ds" (some "u") "norm" 0).1
        = Except.error PyErr.indexError ∨
      (SpotSession.download_URLS svcTrivial (SpotSession.init "a") "ds" (some "u") "norm" 0).1
        = Except.error PyErr.unboundLocalError) ∧
     (∀ r ∈ (SpotSession.download_URLS svcTrivial (SpotSession.init "a") "ds" (some "u") "norm" 0).2,
        ∀ x, r.url ≠ URL_image ++ x))) :=
  ⟨rfl, download_ops_fail_on_empty_derived svcTrivial (SpotSession.init "a")
    "ds" (some "u") "norm" 0 "out" "nm" rfl⟩

/-! ## C9: a nonempty sequence with no match falls back to the last path -/

/-- On a nonempty record list in which no path contains the requested
kind, the selection loop terminates with `path` holding the last
record's path, whatever the variable held before. -/
theorem scanPath_no_match_eq_last (kind : String) :
    ∀ (l : List DerivedRecord) (hne : l ≠ []) (acc : Option String),
      (∀ r ∈ l, strContains r.path kind = false) →
      scanPath kind l acc = some ((l.getLast hne).path)
  | [], hne, _, _ => absurd rfl hne
  | [r], _, acc, h => by
    simp [scanPath, h r (by simp)]
  | r :: r' :: rs, _, acc, h => by
    rw [show scanPath kind (r :: r' :: rs) acc
          = if strContains r.path kind then some r.path
            else scanPath kind (r' :: rs) (some r.path) from rfl,
        if_neg (by simp [h r (by simp)]),
        scanPath_no_match_eq_last kind (r' :: rs) (by simp) (some r.path)
          (fun a ha => h a (List.mem_cons_of_mem r ha))]
    congr 1

/-- C9: when the derived-dataset lookup returns a nonempty sequence in
which no record's path contains the requested kind, `download_URLS`
and `download_image` signal no error and silently issue their final
GET against the path of the *last* record of the sequence. -/
theorem download_ops_use_last_path_on_no_match (svc : Service) (s : SpotSession)
    (dataset : String) (username : Option String) (kind : String) (number : Int)
    (l : List DerivedRecord) (img : String)
    (hne : l ≠ [])
    (hd : (SpotSession.derived_datasets svc s (s.formatPath dataset username).1).1 = l)
    (hnm : ∀ r ∈ l, strContains r.path kind = false)
    (him : pyIndex (SpotSession.list_images svc s (s.formatPath dataset username).1
        (s.formatPath dataset username).2).1 number = some img) :
    SpotSession.download_URLS svc s dataset username kind number
      = (Except.ok (svc.jsonText ⟨URL_image ++ (l.getLast hne).path, [("group", "/" ++ img)]⟩),
         (SpotSession.derived_datasets svc s (s.formatPath dataset username).1).2
           ++ (SpotSession.list_images svc s (s.formatPath dataset username).1
                 (s.formatPath dataset username).2).2
           ++ [⟨URL_image ++ (l.getLast hne).path, [("group", "/" ++ img)]⟩]) ∧
    SpotSession.download_image svc s dataset username kind number "out/" "nm"
      = (Except.ok ("out/nm.tif",
           svc.content ⟨URL_rawdata ++ (l.getLast hne).path, [("group", "/" ++ img)]⟩),
         (SpotSession.derived_datasets svc s (s.formatPath dataset username).1).2
           ++ (SpotSession.list_images svc s (s.formatPath dataset username).1
                 (s.formatPath dataset username).2).2
           ++ [⟨URL_rawdata ++ (l.getLast hne).path, [("group", "/" ++ img)]⟩]) := by
  constructor
  · simp only [SpotSession.download_URLS, hd,
      scanPath_no_match_eq_last kind l hne none hnm, him]
  · simp only [SpotSession.download_image, hd,
      scanPath_no_match_eq_last kind l hne none hnm, him]
    rfl

/-- Mock service for the C9 witness: two derived records, neither of
whose paths contains the requested kind, and a one-image listing. -/
def svcNoMatch : Service :=
  { jsonText := fun _ => "[]"
    jsonDerived := fun _ => [⟨"norm", "/a"⟩, ⟨"sino", "/b"⟩]
    jsonList := fun _ => ["i0"]
    content := fun _ => [1] }

/-- Witness for C9 at concrete inputs: kind "xyz" matches neither "/a"
nor "/b"; both operations use "/b", the last path. -/
theorem download_ops_use_last_path_on_no_match_witness :
    (([⟨"norm", "/a"⟩, ⟨"sino", "/b"⟩] : List DerivedRecord) ≠ [] ∧
     (SpotSession.derived_datasets svcNoMatch (SpotSession.init "a")
        ((SpotSession.init "a").formatPath "ds" (some "u")).1).1
       = [⟨"norm", "/a"⟩, ⟨"sino", "/b"⟩] ∧
     (∀ r ∈ ([⟨"norm", "/a"⟩, ⟨"sino", "/b"⟩] : List DerivedRecord),
        strContains r.path "xyz" = false) ∧
     pyIndex (SpotSession.list_images svcNoMatch (SpotSession.init "a")
        ((SpotSession.init "a").formatPath "ds" (some "u")).1
        ((SpotSession.init "a").formatPath "ds" (some "u")).2).1 0 = some "i0") ∧
    (SpotSession.download_URLS svcNoMatch (SpotSession.init "a") "ds" (some "u") "xyz" 0
      = (Except.ok (svcNoMatch.jsonText
            ⟨URL_image ++ (([⟨"norm", "/a"⟩, ⟨"sino", "/b"⟩] : List DerivedRecord).getLast
                (by decide)).path, [("group", "/" ++ "i0")]⟩),
         (SpotSession.derived_datasets svcNoMatch (SpotSession.init "a")
            ((SpotSession.init "a").formatPath "ds" (some "u")).1).2
           ++ (SpotSession.list_images svcNoMatch (SpotSession.init "a")
                 ((SpotSession.init "a").formatPath "ds" (some "u")).1
                 ((SpotSession.init "a").formatPath "ds" (some "u")).2).2
           ++ [⟨URL_image ++ (([⟨"norm", "/a"⟩, ⟨"sino", "/b"⟩] : List DerivedRecord).getLast
                  (by decide)).path, [("group", "/" ++ "i0")]⟩]) ∧
     SpotSession.download_image svcNoMatch (SpotSession.init "a") "ds" (some "u") "xyz" 0 "out/" "nm"
      = (Except.ok ("out/nm.tif",
           svcNoMatch.content ⟨URL_rawdata ++ (([⟨"norm", "/a"⟩, ⟨"sino", "/b"⟩] : List DerivedRecord).getLast
                (by decide)).path, [("group", "/" ++ "i0")]⟩),
         (SpotSession.derived_datasets svcNoMatch (SpotSession.init "a")
            ((SpotSession.init "a").formatPath "ds" (some "u")).1).2
           ++ (SpotSession.list_images svcNoMatch (SpotSession.init "a")
                 ((SpotSession.init "a").formatPath "ds" (some "u")).1
                 ((SpotSession.init "a").formatPath "ds" (some "u")).2).2
           ++ [⟨URL_rawdata ++ (([⟨"norm", "/a"⟩, ⟨"sino", "/b"⟩] : List DerivedRecord).getLast
                  (by decide)).path, [("group", "/" ++ "i0")]⟩])) :=
  ⟨⟨by decide, rfl, by decide, rfl⟩,
    download_ops_use_last_path_on_no_match svcNoMatch (SpotSession.init "a")
      "ds" (some "u") "xyz" 0 [⟨"norm", "/a"⟩, ⟨"sino", "/b"⟩] "i0"
      (by decide) rfl (by decide) rfl⟩

/-! ## C7: end-to-end download scenario against a mock service -/

/-- Mock service of the C7 scenario: one derived dataset
`{kind: "norm", path: "/p1"}`, an image list with two entries, and a
fixed binary payload. -/
def svcScenario : Service :=
  { jsonText := fun _ => "[]"
    jsonDerived := fun _ => [⟨"norm", "/p1"⟩]
    jsonList := fun _ => ["img0.tif", "img1.tif"]
    content := fun _ => [7, 7, 7] }

/-- C7: with the mock returning the single derived record
`{kind: "norm", path: "/p1"}` and images `["img0.tif", "img1.tif"]`,
`download_image(d, u, "norm", 1, "/tmp/out", "dest")` issues its final
GET against the rawdata endpoint extended by "/p1" with group
parameter "/img1.tif", and writes the response body to
"/tmp/out/dest.tif". -/
theorem download_image_scenario :
    SpotSession.download_image svcScenario (SpotSession.init "default")
        "ds" (some "uu") "norm" 1 "/tmp/out" "dest"
      = (Except.ok ("/tmp/out/dest.tif", [7, 7, 7]),
         [⟨URL_DerivedDatasets, [("dataset", "ds")]⟩,
          ⟨"https://portal-auth.nersc.gov/als/hdf/listimages/als/bl832/uu/ds/raw/ds.h5", []⟩,
          ⟨URL_rawdata ++ "/p1", [("group", "/img1.tif")]⟩]) := by
  rfl

/-! ## C4: the bulk-copy helper -/

/-- C4: `NERSC_RetreiveData` on any nonempty filename list raises
`NameError` at its first loop iteration — the body refers to the
global name `useraccount`, which is bound nowhere in the module — so
no source or destination path is ever constructed and no copy is
performed; with an empty list the loops run zero times and nothing is
copied. -/
theorem NERSC_RetreiveData_raises_nameError :
    NERSC_RetreiveData ["f1"] "u" "/dest/" NERSC_DefaultPath
      = Except.error PyErr.nameError ∧
    NERSC_RetreiveData [] "u" "/dest/" NERSC_DefaultPath = Except.ok [] := by
  constructor <;> rfl

/-! ## C5 and C10: the text-list parser -/

/-- C5 fails as stated: on content "a\n#b\n c \n" with comment prefix
"#" the parser does not return ["a", "c"]. -/
theorem list_from_txt_example_ne_spec :
    list_from_txt "a\n#b\n c \n" "#" ≠ Except.ok ["a", "c"] := by
  intro h
  rw [show list_from_txt "a\n#b\n c \n" "#" = Except.ok ["a", "c "] from rfl] at h
  exact absurd (Except.ok.inj h) (by decide)

/-- C5 (amended): on content "a\n#b\n c \n" with comment prefix "#"
the parser returns ["a", "c "]: spaces are stripped before newlines,
so the space in " c \n" that precedes the newline survives and the
kept line is "c " with its trailing space. -/
theorem list_from_txt_example_eval :
    list_from_txt "a\n#b\n c \n" "#" = Except.ok ["a", "c "] := rfl

/-- A blank line anywhere in the input makes the per-line loop raise
`IndexError` when it indexes the first character of the stripped
line. -/
theorem processLines_error_of_blank (comment : String) :
    ∀ (ls : List String), (∃ l ∈ ls, pyStripStr ['\n'] (pyStripStr [' '] l) = "") →
      processLines comment ls = Except.error PyErr.indexError
  | [], h => absurd h (by simp)
  | line :: rest, h => by
    rcases h with ⟨l, hl, hblank⟩
    rw [List.mem_cons] at hl
    rcases hl with hl | hl
    · rw [hl] at hblank
      have hd : (pyStripStr ['\n'] (pyStripStr [' '] line)).data.head? = none := by
        rw [hblank]; rfl
      simp only [processLines, hd]
    · have ih := processLines_error_of_blank comment rest ⟨l, hl, hblank⟩
      simp only [processLines, ih]
      cases hh : (pyStripStr ['\n'] (pyStripStr [' '] line)).data.head? <;> simp

/-- C10: whenever some line of the input becomes the empty string
after the strip of spaces and then newlines (a blank line),
`list_from_txt` fails with the out-of-bounds `IndexError` instead of
skipping or keeping the line. -/
theorem list_from_txt_blank_line_index_error (content comment : String)
    (h : ∃ l ∈ readlines content, pyStripStr ['\n'] (pyStripStr [' '] l) = "") :
    list_from_txt content comment = Except.error PyErr.indexError :=
  processLines_error_of_blank comment (readlines content) h

/-- Witness for C10 at a concrete input containing the blank line " \n". -/
theorem list_from_txt_blank_line_index_error_witness :
    (∃ l ∈ readlines "a\n \nb\n", pyStripStr ['\n'] (pyStripStr [' '] l) = "") ∧
    list_from_txt "a\n \nb\n" "#" = Except.error PyErr.indexError :=
  ⟨⟨" \n", by decide⟩,
    list_from_txt_blank_line_index_error "a\n \nb\n" "#" ⟨" \n", by decide⟩⟩
